import Mathlib

/-!
Verification of the background-check core of the PropertyVet backend.

Shallow embedding of the check lifecycle found in
`10-WEB-APP/backend/server.js`, `10-WEB-APP/backend/rtw-integration.js`,
`10-WEB-APP/backend/simple_server.js` and
`10-WEB-APP/mcp-integrations/04-API-BRIDGES/mcp_integration.js`.

Conventions used throughout the embedding:
* `Math.random()` draws are passed in explicitly as rationals `r` with
  `0 ≤ r < 1`; `Math.floor` is `Int.floor` and `Math.round` is `jsRound`.
* A possibly-absent JSON field is an `Option`; JavaScript string falsiness
  (`!s`, `s || d`) treats the empty string like an absent one.
* Status and risk-level values are kept as `String`, exactly as in the source.
* The global in-memory tables (`users`, `backgroundChecks`, `activeWorkflows`)
  are passed in and returned explicitly as lists.
-/

namespace PropertyVet

/-- JavaScript `Math.round`: round half toward positive infinity. -/
def jsRound (q : ℚ) : ℤ := ⌊q + 1/2⌋

/-- JavaScript `v || d` on an optional string `v`: the default applies both
when the field is absent and when it is the empty string. -/
def jsOrElse (v : Option String) (d : String) : String :=
  match v with
  | none => d
  | some s => if s = "" then d else s

/-- Risk thresholds written from the spec's words (§4.6): a score of at least
750 is low risk, at least 650 is medium, anything below is high. -/
def deriveRisk (score : ℤ) : String :=
  if score ≥ 750 then "low" else if score ≥ 650 then "medium" else "high"

/-- Canonical score written from the spec's words (§4.6):
`300 + (external/100) * 550`, rounded to the nearest integer. -/
def specCanonicalScore (s : ℚ) : ℤ := jsRound (300 + s / 100 * 550)

namespace Server

/-- Rows of the in-memory `users` table (`server.js` line 28); only the fields
read by the check-admission path are kept. -/
structure User where
  id : String
  subscription : String
  checksRemaining : ℤ
deriving DecidableEq

/-- The `results` object generated by `completeBackgroundCheck` (`server.js`
lines 546-578); constant-valued subsections are kept as literal fields. -/
structure MockResults where
  overallScore : ℤ
  riskLevel : String
  identityVerificationStatus : String
  creditScore : ℤ
  criminalRecordsFound : ℤ
  employmentVerificationStatus : String
  rentalPropertiesCount : ℤ
  recommendations : List String
deriving DecidableEq

/-- Check records pushed onto the in-memory `backgroundChecks` table
(`server.js` lines 305-319); the completion fields stay absent until
`completeBackgroundCheck` runs. -/
structure CheckRecord where
  id : String
  userId : String
  applicantName : String
  email : String
  phone : String
  propertyAddress : String
  ssn : String
  dateOfBirth : String
  checkLevel : String
  status : String
  createdAt : String
  estimatedCompletion : String
  mcpEnabled : Bool
  completedAt : Option String
  processingTime : Option ℤ
  results : Option MockResults
deriving DecidableEq

/-- Lookahead of the masking regex `\d(?=\d\x7b4\x7d)`: true when the next
four characters are all digits. -/
def next4Digits (l : List Char) : Bool :=
  match l with
  | a :: b :: c :: d :: _ => a.isDigit && b.isDigit && c.isDigit && d.isDigit
  | _ => false

/-- Character-by-character action of the global replace at `server.js` line
312: a digit is replaced by `*` exactly when it is immediately followed by
four further digits; the lookahead inspects the original string, which a
regex replace never rewrites while matching. -/
def maskChars : List Char → List Char
  | [] => []
  | c :: rest => (if c.isDigit && next4Digits rest then '*' else c) :: maskChars rest

/-- Mask applied to the submitted SSN before it is stored (`server.js` 312). -/
def maskSSN (s : String) : String := String.mk (maskChars s.toList)

/-- Request body of `POST /api/background-checks` (`server.js` 283-291). An
absent field is modelled by the empty string, which is how the truthiness
test of line 294 perceives it. -/
structure SubmitBody where
  applicantName : String
  email : String
  phone : String
  propertyAddress : String
  ssn : String
  dateOfBirth : String
  checkLevel : String
deriving DecidableEq

/-- HTTP outcome of the submission route (status 400 / 402 / 500 / 201). -/
inductive SubmitResponse
  | badRequest (error : String)
  | paymentRequired (error : String)
  | serverError (error : String)
  | created (message : String) (checkId : String) (estimatedCompletion : String)
deriving DecidableEq

/-- Effect of `user.checksRemaining--` at `server.js` 323-326: the single user
object previously located by `users.find` is mutated in place, and only when
its subscription is literally `trial`. -/
def decrementTrial : List User → String → List User
  | [], _ => []
  | u :: rest, uid =>
    if u.id == uid then
      (if u.subscription == "trial" then
        { u with checksRemaining := u.checksRemaining - 1 }
      else u) :: rest
    else u :: decrementTrial rest uid

/-- The record object built at `server.js` 305-319; `newId`, `now` and `eta`
stand for the `uuidv4()` and `new Date(...)` values produced there. -/
def newCheckRecord (uid : String) (b : SubmitBody) (newId now eta : String)
    (useMCP : Bool) : CheckRecord :=
  { id := newId
    userId := uid
    applicantName := b.applicantName
    email := b.email
    phone := b.phone
    propertyAddress := b.propertyAddress
    ssn := maskSSN b.ssn
    dateOfBirth := b.dateOfBirth
    checkLevel := b.checkLevel
    status := "processing"
    createdAt := now
    estimatedCompletion := eta
    mcpEnabled := useMCP
    completedAt := none
    processingTime := none
    results := none }

/-- Handler of `POST /api/background-checks` (`server.js` 281-420) up to and
including record creation and quota decrement, which both branches of the
MCP/standard split share. Reading `user.checksRemaining` after `users.find`
returned `undefined` throws and is caught as a 500 (`server.js` 416-419).
Returns the updated `users` and `backgroundChecks` tables with the HTTP
response. -/
def postBackgroundChecks (users : List User) (backgroundChecks : List CheckRecord)
    (authUserId : String) (b : SubmitBody) (newId now eta : String)
    (useMCP : Bool) : List User × List CheckRecord × SubmitResponse :=
  if b.applicantName = "" ∨ b.email = "" ∨ b.ssn = "" ∨ b.dateOfBirth = "" ∨
      b.checkLevel = "" then
    (users, backgroundChecks, .badRequest "All required fields must be provided")
  else
    match users.find? (fun u => u.id == authUserId) with
    | none => (users, backgroundChecks, .serverError "Internal server error")
    | some user =>
      if user.checksRemaining ≤ 0 ∧ user.subscription = "trial" then
        (users, backgroundChecks,
          .paymentRequired "No remaining checks. Please upgrade your subscription.")
      else
        (decrementTrial users authUserId,
         backgroundChecks ++ [newCheckRecord authUserId b newId now eta useMCP],
         .created "Background check started" newId eta)

/-- The `mockResults` patch assembled by `completeBackgroundCheck`
(`server.js` 542-588): `r1` is the `Math.random()` draw behind
`processingTime`, `r2` the one behind `overallScore`, `r3` the one behind the
credit sub-score. The source first writes `riskLevel: 'low'` and then always
overwrites it with the threshold chain of lines 581-588, so the net value is
that chain. -/
structure CompletionPatch where
  status : String
  completedAt : String
  processingTime : ℤ
  results : MockResults
deriving DecidableEq

def mkMockResults (r1 r2 r3 : ℚ) (now : String) : CompletionPatch :=
  let score : ℤ := ⌊r2 * 200⌋ + 650
  { status := "completed"
    completedAt := now
    processingTime := ⌊r1 * 10⌋ + 10
    results :=
      { overallScore := score
        riskLevel :=
          if score ≥ 750 then "low" else if score ≥ 650 then "medium" else "high"
        identityVerificationStatus := "verified"
        creditScore := ⌊r3 * 200⌋ + 650
        criminalRecordsFound := 0
        employmentVerificationStatus := "verified"
        rentalPropertiesCount := 3
        recommendations :=
          ["Excellent tenant candidate - approve with confidence",
           "Standard security deposit recommended",
           "12-month lease term acceptable",
           "Consider offering preferred tenant benefits"] } }

/-- The merge `Object.assign(check, mockResults)` at `server.js` 591. -/
def applyPatch (c : CheckRecord) (p : CompletionPatch) : CheckRecord :=
  { c with
    status := p.status
    completedAt := some p.completedAt
    processingTime := some p.processingTime
    results := some p.results }

/-- In-place update of the first record carrying the given id; when
`backgroundChecks.find` misses, the early `return` leaves the table
unchanged (`server.js` 538-539). -/
def updateFirst (checks : List CheckRecord) (checkId : String)
    (p : CompletionPatch) : List CheckRecord :=
  match checks with
  | [] => []
  | c :: rest =>
    if c.id == checkId then applyPatch c p :: rest
    else c :: updateFirst rest checkId p

/-- `completeBackgroundCheck(checkId)` (`server.js` 537-592) over an explicit
`backgroundChecks` table, random draws and clock value. -/
def completeBackgroundCheck (checks : List CheckRecord) (checkId : String)
    (r1 r2 r3 : ℚ) (now : String) : List CheckRecord :=
  updateFirst checks checkId (mkMockResults r1 r2 r3 now)

/-- Response of `GET /api/background-checks/:id` (`server.js` 423-431). -/
inductive GetResponse
  | notFound (error : String)
  | ok (check : CheckRecord)
deriving DecidableEq

/-- Handler of `GET /api/background-checks/:id` (`server.js` 423-431): a
single `find` over both the id and the authenticated owner; a miss of either
kind produces the same 404 body. -/
def getBackgroundCheckById (checks : List CheckRecord) (id uid : String) :
    GetResponse :=
  match checks.find? (fun c => c.id == id && c.userId == uid) with
  | none => .notFound "Background check not found"
  | some c => .ok c

end Server

namespace RTW

/-- The `mockResults.results` sections synthesized by `fallbackProcessing`
(`rtw-integration.js` 110-185); constant-valued sections are kept as literal
fields, the two random scores and the derived risk level as computed ones. -/
structure FallbackResults where
  overallScore : ℤ
  riskLevel : String
  identityVerificationStatus : String
  creditScore : ℤ
  criminalRecordsFound : ℤ
  employmentVerificationStatus : String
  evictions : ℤ
  recommendations : List String
  riskFactors : List String
  confidenceLevel : ℤ
deriving DecidableEq

/-- Return envelope of `processBackgroundCheck` and `fallbackProcessing`.
The primary-path envelope (`rtw-integration.js` 54-60) carries no `fallback`
and no `results` key; the absent boolean is modelled `false` (undefined is
falsy) and the absent results as `none`. -/
structure Envelope where
  success : Bool
  taskId : String
  eta : String
  status : String
  message : String
  fallback : Bool
  results : Option FallbackResults
deriving DecidableEq

/-- The generated result sections of `rtw-integration.js` 110-195, with the
risk level recomputed from the overall score by the chain at lines 188-195
(the initial `'low'` is always overwritten). `r2` and `r3` are the two
`Math.random()` draws. -/
def fallbackResults (r2 r3 : ℚ) : FallbackResults :=
  let score : ℤ := ⌊r2 * 200⌋ + 650
  { overallScore := score
    riskLevel :=
      if score ≥ 750 then "low" else if score ≥ 650 then "medium" else "high"
    identityVerificationStatus := "verified"
    creditScore := ⌊r3 * 200⌋ + 650
    criminalRecordsFound := 0
    employmentVerificationStatus := "verified"
    evictions := 0
    recommendations :=
      ["Excellent tenant candidate - approve with confidence",
       "Standard security deposit recommended",
       "12-month lease term acceptable",
       "Consider offering preferred tenant benefits",
       "No additional documentation required"]
    riskFactors := []
    confidenceLevel := 96 }

/-- `fallbackProcessing(applicantData)` (`rtw-integration.js` 95-206). The
2-second simulated delay is timing and is dropped; the generated task id
`'fallback_' + Date.now()` and the 15-minute eta arrive as parameters. The
top-level `mockResults` wrapper fields not copied into the return envelope
(`status`, `processingTime`, `applicant`) are omitted with it. -/
def fallbackProcessing (fallbackTaskId fallbackEta : String) (r2 r3 : ℚ) :
    Envelope :=
  { success := true
    taskId := fallbackTaskId
    eta := fallbackEta
    status := "processing"
    message := "Background check processing initiated"
    fallback := true
    results := some (fallbackResults r2 r3) }

/-- Outcome of the axios dispatch to the external orchestration service: a
2xx response carrying `taskId` and `estimatedCompletion`, or any transport
failure, non-2xx response or timeout — all of which axios raises and the
catch block at `rtw-integration.js` 62-67 receives. -/
inductive DispatchOutcome
  | ok (taskId : String) (estimatedCompletion : String)
  | failure (message : String)
deriving DecidableEq

/-- Whether the dispatch outcome lands in the catch block. -/
def isFailure : DispatchOutcome → Bool
  | .ok _ _ => false
  | .failure _ => true

/-- `processBackgroundCheck(applicantData)` (`rtw-integration.js` 18-68): on
a successful dispatch, the success envelope of lines 54-60; on any error,
the value of `fallbackProcessing` (line 66). -/
def processBackgroundCheck (o : DispatchOutcome)
    (fallbackTaskId fallbackEta : String) (r2 r3 : ℚ) : Envelope :=
  match o with
  | .ok taskId eta =>
    { success := true
      taskId := taskId
      eta := eta
      status := "processing"
      message := "RTW orchestration initiated successfully"
      fallback := false
      results := none }
  | .failure _ => fallbackProcessing fallbackTaskId fallbackEta r2 r3

end RTW

namespace MCP

/-- The `statusMap` object literal (`mcp_integration.js` 238-243). -/
def statusMap : List (String × String) :=
  [("approve", "approved"),
   ("approve_with_conditions", "approved"),
   ("manual_review", "flagged"),
   ("decline", "declined")]

/-- `mapMCPStatusToPropertyVet(mcpRecommendation)` (`mcp_integration.js`
237-246) restricted to own-key lookups on the literal followed by
`|| 'processing'`; an absent recommendation misses the table the same way.
This simple model is exact for every key that is not a property of
`Object.prototype`; `mapMCPStatusToPropertyVetJS` below carries the full
JavaScript property-read semantics including the prototype chain. -/
def mapMCPStatusToPropertyVet (mcpRecommendation : Option String) : String :=
  match mcpRecommendation with
  | none => "processing"
  | some k => (statusMap.lookup k).getD "processing"

/-- Own property names of `Object.prototype` in ECMAScript, all of which an
object literal such as `statusMap` inherits; reading any of them yields a
truthy value (a function — or, for `__proto__`, the prototype object). -/
def objectPrototypeProps : List String :=
  ["constructor", "hasOwnProperty", "isPrototypeOf", "propertyIsEnumerable",
   "toLocaleString", "toString", "valueOf", "__proto__",
   "__defineGetter__", "__defineSetter__", "__lookupGetter__",
   "__lookupSetter__"]

/-- Value produced by `statusMap[mcpRecommendation] || 'processing'` under
full JavaScript semantics: one of the table's own string values, the default
string, or a non-string truthy value inherited from `Object.prototype`. -/
inductive StatusLookup
  | str (s : String)
  | inheritedObject (prop : String)
deriving DecidableEq

/-- `mapMCPStatusToPropertyVet(mcpRecommendation)` (`mcp_integration.js`
237-246) with full JavaScript property-read semantics: the lookup
`statusMap[k]` consults the literal's own keys first and then the prototype
chain, so a key naming an `Object.prototype` property yields that inherited
truthy value and `|| 'processing'` passes it through unchanged; only a
complete miss (`undefined`, falsy) falls to the default. An absent
recommendation reads the key `"undefined"`, which is a complete miss. -/
def mapMCPStatusToPropertyVetJS (mcpRecommendation : Option String) :
    StatusLookup :=
  match mcpRecommendation with
  | none => .str "processing"
  | some k =>
    match statusMap.lookup k with
    | some v => .str v
    | none =>
      if k ∈ objectPrototypeProps then .inheritedObject k
      else .str "processing"

/-- `calculatePropertyVetScore(mcpScore)` (`mcp_integration.js` 248-258);
`none` stands for any value with `typeof mcpScore !== 'number'`. -/
def calculatePropertyVetScore (mcpScore : Option ℚ) : ℤ :=
  match mcpScore with
  | none => 650
  | some s =>
    let minScore : ℚ := 300
    let maxScore : ℚ := 850
    let range : ℚ := maxScore - minScore
    jsRound (minScore + s / 100 * range)

/-- The `final_decision` object reached through
`mcpResult.final_recommendation?.final_decision || \x7b\x7d`; each field may
be absent. -/
structure FinalDecision where
  recommendation : Option String
  overall_score : Option ℚ
  risk_level : Option String
deriving DecidableEq

/-- The empty object the `||` falls back to. -/
def emptyDecision : FinalDecision :=
  { recommendation := none, overall_score := none, risk_level := none }

/-- MCP workflow result consumed by `convertMCPResultToPropertyVetFormat`
(`mcp_integration.js` 197-235). `final_decision = none` covers an absent
`final_recommendation` and an absent `final_decision` alike, and
`total_duration_seconds = none` an absent `performance_metrics` chain. -/
structure MCPResult where
  status : String
  error : Option String
  workflow_id : String
  applicant_name : String
  final_decision : Option FinalDecision
  total_duration_seconds : Option ℚ
  check_level : String
  completed_at : String
  started_at : String
deriving DecidableEq

/-- The PropertyVet-format record built at `mcp_integration.js` 210-226; the
nested `mcpData` blob merely copies conversion inputs and is omitted. -/
structure ConvertedRecord where
  id : String
  applicantName : String
  status : String
  score : ℤ
  riskLevel : String
  processingTime : ℚ
  completedAt : String
  createdAt : String
deriving DecidableEq

/-- Result of the conversion: the error object of lines 199-204 / 228-234, or
the converted record. -/
inductive Converted
  | error (error : String)
  | ok (record : ConvertedRecord)
deriving DecidableEq

/-- `convertMCPResultToPropertyVetFormat(mcpResult)` (`mcp_integration.js`
197-235). -/
def convertMCPResultToPropertyVetFormat (m : MCPResult) : Converted :=
  if m.status ≠ "success" then
    .error (jsOrElse m.error "MCP processing failed")
  else
    let fd := m.final_decision.getD emptyDecision
    .ok
      { id := m.workflow_id
        applicantName := m.applicant_name
        status := mapMCPStatusToPropertyVet fd.recommendation
        score := calculatePropertyVetScore fd.overall_score
        riskLevel := jsOrElse fd.risk_level "medium"
        processingTime := m.total_duration_seconds.getD 0
        completedAt := m.completed_at
        createdAt := m.started_at }

/-- Entry of the `activeWorkflows` map as created at `mcp_integration.js`
68-74 and mutated by the notification handler. -/
structure Workflow where
  applicantName : String
  startTime : String
  status : String
  processingTime : ℚ
  completedTime : Option String
  recommendation : Option String
deriving DecidableEq

/-- Acknowledgement object returned by `handleMCPNotification`. -/
structure NotifResponse where
  status : String
  workflow_id : String
  timestamp : String
deriving DecidableEq

/-- Mutation of `activeWorkflows` at `mcp_integration.js` 168-175: when the
map tracks the workflow id, that entry receives the callback's status, a
fresh `completedTime` and the recommendation; keys of a `Map` are unique, so
a first-match update is exact. -/
def updateWorkflows (ws : List (String × Workflow)) (wid st rec now : String) :
    List (String × Workflow) :=
  match ws with
  | [] => []
  | (k, w) :: rest =>
    if k == wid then
      (k, { w with
              status := st
              completedTime := some now
              recommendation := some rec }) :: rest
    else (k, w) :: updateWorkflows rest wid st rec now

/-- `handleMCPNotification(notificationData)` (`mcp_integration.js` 161-194):
updates only the workflow-tracking map and acknowledges with
`status: 'received'` whether or not the workflow is known; no check-record
store is read or written (the database update is left as a comment in the
source at lines 177-178). -/
def handleMCPNotification (ws : List (String × Workflow))
    (wid st rec now : String) : List (String × Workflow) × NotifResponse :=
  (updateWorkflows ws wid st rec now,
   { status := "received", workflow_id := wid, timestamp := now })

end MCP

namespace SimpleServer

/-- The acknowledgement body of `simple_server.js` line 110. -/
structure CallbackAck where
  received : Bool
deriving DecidableEq

/-- Inbound callback payload; the handler only logs it. -/
structure CallbackBody where
  workflowId : String
  status : String
  recommendation : String
deriving DecidableEq

/-- Handler of `POST /api/rtw/callback` (`simple_server.js` 107-111): it logs
the body and replies with the acknowledgement; it reads and writes no check
data, so the server's check list passes through unchanged. -/
def rtwCallback (checks : List Server.CheckRecord) (body : CallbackBody) :
    List Server.CheckRecord × CallbackAck :=
  (checks, { received := true })

end SimpleServer

/-! Concrete fixtures used to instantiate the claim theorems. -/

/-- The spec's happy-path applicant, with the dashed SSN of §8. -/
def submitJane : Server.SubmitBody :=
  { applicantName := "Jane Doe"
    email := "jane@example.com"
    phone := "555-0100"
    propertyAddress := "Unit 205"
    ssn := "123-45-6789"
    dateOfBirth := "1990-01-01"
    checkLevel := "standard" }

/-- A finite non-trial tier whose quota is exhausted. -/
def starterUser : Server.User :=
  { id := "user_1", subscription := "starter", checksRemaining := 0 }

/-- A trial-tier user whose quota is exhausted. -/
def trialUserZero : Server.User :=
  { id := "user_2", subscription := "trial", checksRemaining := 0 }

/-- The record created for `submitJane` on behalf of `user_1`. -/
def processingCheck : Server.CheckRecord :=
  Server.newCheckRecord "user_1" submitJane "check_1" "t0" "t1" false

/-- The check table after one completion run (all draws 0, clock `t2`). -/
def stateOnce : List Server.CheckRecord :=
  Server.completeBackgroundCheck [processingCheck] "check_1" 0 0 0 "t2"

/-- The check table after a second completion run on the same id, with the
score draw now 1/2 and clock `t3`. -/
def stateTwice : List Server.CheckRecord :=
  Server.completeBackgroundCheck stateOnce "check_1" 0 (1/2) 0 "t3"

/-- A record that has already reached the terminal status `completed`. -/
def completedCheck : Server.CheckRecord :=
  Server.applyPatch processingCheck (Server.mkMockResults 0 0 0 "t2")

/-- A callback payload as the orchestration dependency would deliver it. -/
def cbPayload : SimpleServer.CallbackBody :=
  { workflowId := "wf_1", status := "completed", recommendation := "approve" }

/-- A workflow entry tracked by the MCP integration. -/
def trackedWorkflow : MCP.Workflow :=
  { applicantName := "Jane Doe", startTime := "t0", status := "processing",
    processingTime := 12, completedTime := none, recommendation := none }

/-- The decision object of `mcpSuccessHighScore`. -/
def highScoreDecision : MCP.FinalDecision :=
  { recommendation := some "approve", overall_score := some 100,
    risk_level := none }

/-- A successful MCP result whose external confidence score is 100 and whose
`risk_level` field is absent. -/
def mcpSuccessHighScore : MCP.MCPResult :=
  { status := "success", error := none, workflow_id := "wf_9",
    applicant_name := "Jane Doe",
    final_decision := some highScoreDecision,
    total_duration_seconds := some 12, check_level := "standard",
    completed_at := "t9", started_at := "t8" }

/-! Helper lemmas. -/

/-- Bounds of the generated score `Math.floor(Math.random() * 200) + 650`. -/
lemma score_draw_bounds {r : ℚ} (h0 : 0 ≤ r) (h1 : r < 1) :
    650 ≤ ⌊r * 200⌋ + 650 ∧ ⌊r * 200⌋ + 650 ≤ 849 := by
  have hlow : (0 : ℤ) ≤ ⌊r * 200⌋ := Int.floor_nonneg.mpr (by positivity)
  have hhigh : ⌊r * 200⌋ < 200 := by
    apply Int.floor_lt.mpr
    push_cast
    nlinarith
  omega

/-- A threshold chain applied to a score of at least 650 never says high. -/
lemma risk_chain_of_ge_650 {score : ℤ} (h : 650 ≤ score) :
    (if score ≥ 750 then "low" else if score ≥ 650 then "medium" else "high")
        = "low" ∨
    (if score ≥ 750 then "low" else if score ≥ 650 then "medium" else "high")
        = "medium" := by
  by_cases h7 : score ≥ 750
  · left; simp [h7]
  · right; simp [h7, h]

/-- First-match update with no earlier match lands on the given cell. -/
lemma updateFirst_append (pre post : List Server.CheckRecord)
    (c : Server.CheckRecord) (checkId : String) (p : Server.CompletionPatch)
    (hpre : ∀ x ∈ pre, x.id ≠ checkId) (hc : c.id = checkId) :
    Server.updateFirst (pre ++ c :: post) checkId p
      = pre ++ Server.applyPatch c p :: post := by
  induction pre with
  | nil => simp [Server.updateFirst, hc]
  | cons x rest ih =>
    have hx : x.id ≠ checkId := hpre x (by simp)
    simp only [List.cons_append, Server.updateFirst]
    rw [if_neg (by simp [hx])]
    exact congrArg (x :: ·) (ih (fun y hy => hpre y (by simp [hy])))

/-- An unknown workflow id leaves the tracking map untouched. -/
lemma updateWorkflows_unknown (ws : List (String × MCP.Workflow))
    (wid st rec now : String) (h : ∀ p ∈ ws, p.1 ≠ wid) :
    MCP.updateWorkflows ws wid st rec now = ws := by
  induction ws with
  | nil => rfl
  | cons kw rest ih =>
    obtain ⟨k, w⟩ := kw
    have hk : k ≠ wid := h (k, w) (by simp)
    simp only [MCP.updateWorkflows]
    rw [if_neg (by simp [hk]), ih (fun p hp => h p (by simp [hp]))]

/-! Claim theorems. -/

/-- C1, as stated, fails on the code: a user on the finite `starter` tier
with `checksRemaining = 0` submits a valid check and is admitted — the
response is 201-created, a CheckRecord is stored and the quota is untouched —
so denial does not hold "regardless of the tier name". -/
theorem C1_claim_counterexample :
    Server.postBackgroundChecks [starterUser] [] "user_1" submitJane
        "check_1" "t0" "t1" false
      = ([starterUser],
         [Server.newCheckRecord "user_1" submitJane "check_1" "t0" "t1" false],
         .created "Background check started" "check_1" "t1") ∧
    (Server.postBackgroundChecks [starterUser] [] "user_1" submitJane
        "check_1" "t0" "t1" false).2.2
      ≠ .paymentRequired "No remaining checks. Please upgrade your subscription." := by
  constructor
  · decide
  · decide

/-- C1 amended: with the submitting user in the table and all required fields
present, admission is denied (402, tables unchanged) iff the user's
subscription is literally `trial` and `checksRemaining ≤ 0`; otherwise the
submission is admitted, the masked record is appended, and `checksRemaining`
is decremented exactly when the tier is `trial`. -/
theorem C1_admission_trial_only (u : Server.User)
    (checks : List Server.CheckRecord) (b : Server.SubmitBody)
    (newId now eta : String) (useMCP : Bool)
    (hname : b.applicantName ≠ "") (hemail : b.email ≠ "") (hssn : b.ssn ≠ "")
    (hdob : b.dateOfBirth ≠ "") (hlevel : b.checkLevel ≠ "") :
    (u.subscription = "trial" ∧ u.checksRemaining ≤ 0 →
      Server.postBackgroundChecks [u] checks u.id b newId now eta useMCP
        = ([u], checks,
           .paymentRequired "No remaining checks. Please upgrade your subscription.")) ∧
    (¬(u.subscription = "trial" ∧ u.checksRemaining ≤ 0) →
      Server.postBackgroundChecks [u] checks u.id b newId now eta useMCP
        = ([if u.subscription = "trial" then
              { u with checksRemaining := u.checksRemaining - 1 }
            else u],
           checks ++ [Server.newCheckRecord u.id b newId now eta useMCP],
           .created "Background check started" newId eta)) := by
  have hval : ¬(b.applicantName = "" ∨ b.email = "" ∨ b.ssn = "" ∨
      b.dateOfBirth = "" ∨ b.checkLevel = "") := by
    simp [hname, hemail, hssn, hdob, hlevel]
  have hfind : ([u] : List Server.User).find? (fun v => v.id == u.id) = some u := by
    simp [List.find?]
  constructor
  · rintro ⟨ht, hq⟩
    simp [Server.postBackgroundChecks, hval, hfind, ht, hq]
  · intro hnot
    have hcond : ¬(u.checksRemaining ≤ 0 ∧ u.subscription = "trial") := by
      intro hx; exact hnot ⟨hx.2, hx.1⟩
    simp only [Server.postBackgroundChecks, hfind]
    rw [if_neg hval, if_neg hcond]
    by_cases ht : u.subscription = "trial" <;>
      simp [Server.decrementTrial, ht]

/-- C1 amended, instantiated: the trial user with zero remaining checks is
denied with the quota-exceeded error and no record is created. -/
theorem C1_admission_trial_only_witness :
    submitJane.applicantName ≠ "" ∧ submitJane.email ≠ "" ∧
    submitJane.ssn ≠ "" ∧ submitJane.dateOfBirth ≠ "" ∧
    submitJane.checkLevel ≠ "" ∧
    (trialUserZero.subscription = "trial" ∧ trialUserZero.checksRemaining ≤ 0) ∧
    Server.postBackgroundChecks [trialUserZero] [] trialUserZero.id submitJane
        "check_9" "t0" "t1" false
      = ([trialUserZero], [],
         .paymentRequired "No remaining checks. Please upgrade your subscription.") :=
  ⟨by decide, by decide, by decide, by decide, by decide, ⟨rfl, by decide⟩,
   (C1_admission_trial_only trialUserZero [] submitJane "check_9" "t0" "t1"
      false (by decide) (by decide) (by decide) (by decide) (by decide)).1
     ⟨rfl, by decide⟩⟩

/-- C2, as stated, fails on the code: after the first completion run the
record is terminal (`completed`, overallScore 650), yet a second invocation
of the completion routine on the same id changes the record again — the
overallScore becomes 750 — instead of being a no-op or failing. -/
theorem C2_claim_counterexample :
    (stateOnce.map fun c => c.status) = ["completed"] ∧
    (stateOnce.map fun c => c.results.map fun r => r.overallScore)
      = [some 650] ∧
    (stateTwice.map fun c => c.results.map fun r => r.overallScore)
      = [some 750] ∧
    stateTwice ≠ stateOnce := by
  have h1 : (stateOnce.map fun c => c.status) = ["completed"] := by
    simp [stateOnce, Server.completeBackgroundCheck, Server.updateFirst,
          Server.applyPatch, Server.mkMockResults, processingCheck,
          Server.newCheckRecord]
  have h2 : (stateOnce.map fun c => c.results.map fun r => r.overallScore)
      = [some 650] := by
    simp [stateOnce, Server.completeBackgroundCheck, Server.updateFirst,
          Server.applyPatch, Server.mkMockResults, processingCheck,
          Server.newCheckRecord]
  have h3 : (stateTwice.map fun c => c.results.map fun r => r.overallScore)
      = [some 750] := by
    simp [stateTwice, stateOnce, Server.completeBackgroundCheck,
          Server.updateFirst, Server.applyPatch, Server.mkMockResults,
          processingCheck, Server.newCheckRecord]
    norm_num
  refine ⟨h1, h2, h3, fun heq => ?_⟩
  rw [heq, h2] at h3
  simp at h3

/-- C2 amended: the completion routine is unguarded — whenever a record with
the requested id is present (whatever its current status, terminal statuses
included), the invocation overwrites its status, completedAt, processingTime
and results with the freshly generated patch; a repeat invocation is neither
a no-op nor an error. -/
theorem C2_completion_unguarded (pre post : List Server.CheckRecord)
    (c : Server.CheckRecord) (checkId : String) (r1 r2 r3 : ℚ) (now : String)
    (hpre : ∀ x ∈ pre, x.id ≠ checkId) (hc : c.id = checkId) :
    Server.completeBackgroundCheck (pre ++ c :: post) checkId r1 r2 r3 now
      = pre ++ Server.applyPatch c (Server.mkMockResults r1 r2 r3 now) :: post :=
  updateFirst_append pre post c checkId (Server.mkMockResults r1 r2 r3 now)
    hpre hc

/-- C2 amended, instantiated: completing an already-completed record patches
it again. -/
theorem C2_completion_unguarded_witness :
    completedCheck.status = "completed" ∧ completedCheck.id = "check_1" ∧
    Server.completeBackgroundCheck [completedCheck] "check_1" 0 0 0 "t3"
      = [Server.applyPatch completedCheck (Server.mkMockResults 0 0 0 "t3")] :=
  ⟨rfl, rfl,
   C2_completion_unguarded [] [] completedCheck "check_1" 0 0 0 "t3"
     (by simp) rfl⟩

/-- C3, as stated, fails on the code: the callback endpoint performs zero
terminal state changes, not exactly one — after delivering the same payload
twice the referenced record is still `processing` and the store is exactly
the original, although each delivery is acknowledged with success. -/
theorem C3_claim_counterexample :
    processingCheck.status = "processing" ∧
    (SimpleServer.rtwCallback [processingCheck] cbPayload).1
      = [processingCheck] ∧
    (SimpleServer.rtwCallback
        (SimpleServer.rtwCallback [processingCheck] cbPayload).1 cbPayload).1
      = [processingCheck] ∧
    (SimpleServer.rtwCallback [processingCheck] cbPayload).2.received = true :=
  ⟨rfl, rfl, rfl, rfl⟩

/-- C3 amended: neither callback handler ever mutates a check record — every
delivery leaves the check store unchanged and returns a success
acknowledgement; `handleMCPNotification` likewise acknowledges an unknown
workflow id with `status: received` and leaves its workflow-tracking map
unchanged. -/
theorem C3_callbacks_no_record_mutation (checks : List Server.CheckRecord)
    (body : SimpleServer.CallbackBody) (ws : List (String × MCP.Workflow))
    (wid st rec now : String) (hunknown : ∀ p ∈ ws, p.1 ≠ wid) :
    SimpleServer.rtwCallback checks body = (checks, { received := true }) ∧
    (MCP.handleMCPNotification ws wid st rec now).2
      = { status := "received", workflow_id := wid, timestamp := now } ∧
    (MCP.handleMCPNotification ws wid st rec now).1 = ws :=
  ⟨rfl, rfl, updateWorkflows_unknown ws wid st rec now hunknown⟩

/-- C3 amended, instantiated: an unknown workflow id is acknowledged with
success and nothing is mutated. -/
theorem C3_callbacks_no_record_mutation_witness :
    (∀ p ∈ [("wf_1", trackedWorkflow)], p.1 ≠ "wf_unknown") ∧
    SimpleServer.rtwCallback [processingCheck] cbPayload
      = ([processingCheck], { received := true }) ∧
    (MCP.handleMCPNotification [("wf_1", trackedWorkflow)] "wf_unknown"
        "completed" "approve" "t5").1
      = [("wf_1", trackedWorkflow)] :=
  ⟨by decide,
   (C3_callbacks_no_record_mutation [processingCheck] cbPayload
      [("wf_1", trackedWorkflow)] "wf_unknown" "completed" "approve" "t5"
      (by decide)).1,
   (C3_callbacks_no_record_mutation [processingCheck] cbPayload
      [("wf_1", trackedWorkflow)] "wf_unknown" "completed" "approve" "t5"
      (by decide)).2.2⟩

/-- C4, as stated, fails on the code: the normalization path copies the
external `risk_level` field (default `medium`) instead of deriving the level
from the converted score — a successful result with confidence 100 converts
to score 850 with riskLevel `medium`, where the thresholds demand `low`. -/
theorem C4_claim_counterexample :
    MCP.convertMCPResultToPropertyVetFormat mcpSuccessHighScore
      = .ok { id := "wf_9", applicantName := "Jane Doe", status := "approved",
              score := 850, riskLevel := "medium", processingTime := 12,
              completedAt := "t9", createdAt := "t8" } ∧
    deriveRisk 850 = "low" ∧
    ("medium" : String) ≠ deriveRisk 850 := by
  refine ⟨?_, by decide, by decide⟩
  simp [MCP.convertMCPResultToPropertyVetFormat, mcpSuccessHighScore,
        highScoreDecision, MCP.mapMCPStatusToPropertyVet, MCP.statusMap,
        MCP.calculatePropertyVetScore, jsRound, jsOrElse]
  norm_num

/-- C4 amended: the stage-simulator patch and the fallback generator derive
`riskLevel` from `overallScore` by the §4.6 thresholds for every draw, but
the external-result normalization path sets `riskLevel` to the external
`risk_level` field with default `medium`, not to the value derived from the
converted score. -/
theorem C4_risk_consistency_two_paths (r1 r2 r3 : ℚ) (now : String)
    (m : MCP.MCPResult) (fd : MCP.FinalDecision)
    (hm : m.status = "success") (hfd : m.final_decision = some fd) :
    (Server.mkMockResults r1 r2 r3 now).results.riskLevel
      = deriveRisk (Server.mkMockResults r1 r2 r3 now).results.overallScore ∧
    (RTW.fallbackResults r2 r3).riskLevel
      = deriveRisk (RTW.fallbackResults r2 r3).overallScore ∧
    MCP.convertMCPResultToPropertyVetFormat m
      = .ok { id := m.workflow_id
              applicantName := m.applicant_name
              status := MCP.mapMCPStatusToPropertyVet fd.recommendation
              score := MCP.calculatePropertyVetScore fd.overall_score
              riskLevel := jsOrElse fd.risk_level "medium"
              processingTime := m.total_duration_seconds.getD 0
              completedAt := m.completed_at
              createdAt := m.started_at } := by
  refine ⟨rfl, rfl, ?_⟩
  simp [MCP.convertMCPResultToPropertyVetFormat, hm, hfd]

/-- C4 amended, instantiated at the high-confidence result. -/
theorem C4_risk_consistency_two_paths_witness :
    mcpSuccessHighScore.status = "success" ∧
    mcpSuccessHighScore.final_decision = some highScoreDecision ∧
    MCP.convertMCPResultToPropertyVetFormat mcpSuccessHighScore
      = .ok { id := mcpSuccessHighScore.workflow_id
              applicantName := mcpSuccessHighScore.applicant_name
              status := MCP.mapMCPStatusToPropertyVet
                highScoreDecision.recommendation
              score := MCP.calculatePropertyVetScore
                highScoreDecision.overall_score
              riskLevel := jsOrElse highScoreDecision.risk_level "medium"
              processingTime := mcpSuccessHighScore.total_duration_seconds.getD 0
              completedAt := mcpSuccessHighScore.completed_at
              createdAt := mcpSuccessHighScore.started_at } :=
  ⟨rfl, rfl,
   (C4_risk_consistency_two_paths 0 0 0 "t0" mcpSuccessHighScore
      highScoreDecision rfl rfl).2.2⟩

/-- C5 is right and the code is wrong: the masking regex only replaces a
digit that is immediately followed by four further digits, so the dashed SSN
of the spec's own happy-path scenario is stored completely unmasked (nine
original digits visible, and the raw input value itself sits in the stored
record), while an undashed SSN is masked as the code's comment intends. -/
theorem C5_mask_bug_dashed_ssn :
    Server.maskSSN "123-45-6789" = "123-45-6789" ∧
    Server.maskSSN "123456789" = "*****6789" ∧
    (Server.postBackgroundChecks [starterUser] [] "user_1" submitJane
        "check_1" "t0" "t1" false).2.1
      = [Server.newCheckRecord "user_1" submitJane "check_1" "t0" "t1" false] ∧
    (Server.newCheckRecord "user_1" submitJane "check_1" "t0" "t1" false).ssn
      = "123-45-6789" := by
  refine ⟨by decide, by decide, by decide, by decide⟩

/-- C6: every dispatch returns a `success: true` envelope; the envelope is
tagged `fallback` exactly when the dispatch failed, and on failure it
carries the Fallback Generator's results. -/
theorem C6_dispatch_never_fails (o : RTW.DispatchOutcome)
    (ftid feta msg : String) (r2 r3 : ℚ) :
    (RTW.processBackgroundCheck o ftid feta r2 r3).success = true ∧
    (RTW.processBackgroundCheck o ftid feta r2 r3).fallback = RTW.isFailure o ∧
    (RTW.processBackgroundCheck (.failure msg) ftid feta r2 r3).results
      = some (RTW.fallbackResults r2 r3) := by
  cases o <;>
    simp [RTW.processBackgroundCheck, RTW.fallbackProcessing, RTW.isFailure]

/-- C7: the code's score conversion equals the spec's formula
`round(300 + (s/100) * 550)` for every numeric input and is the constant 650
for a non-numeric or absent input. -/
theorem C7_score_normalization (s : ℚ) :
    MCP.calculatePropertyVetScore (some s) = specCanonicalScore s ∧
    MCP.calculatePropertyVetScore none = 650 := by
  constructor
  · simp only [MCP.calculatePropertyVetScore, specCanonicalScore]
    norm_num
  · rfl

/-- C8, as stated, fails on the code: the property read `statusMap[k]`
follows the JavaScript prototype chain, so the unrecognized input `toString`
yields the truthy method inherited from `Object.prototype` — which
`|| 'processing'` passes through unchanged — and not the canonical status
`processing` the claim requires for every other input. -/
theorem C8_claim_counterexample :
    ("toString" : String) ∉ ["approve", "approve_with_conditions",
                             "manual_review", "decline"] ∧
    MCP.mapMCPStatusToPropertyVetJS (some "toString")
      = .inheritedObject "toString" ∧
    MCP.mapMCPStatusToPropertyVetJS (some "toString")
      ≠ .str "processing" := by
  refine ⟨by decide, by decide, by decide⟩

/-- C8 amended: the four table keys map per the fixed case-sensitive table,
and the absent case and every other input map to `processing` — except an
input naming an `Object.prototype` property (`constructor`, `toString`,
`__proto__`, ...), which returns the inherited truthy value from the
prototype chain instead. -/
theorem C8_status_mapping_amended (k : String)
    (hk : k ∉ ["approve", "approve_with_conditions", "manual_review",
               "decline"])
    (hp : k ∉ MCP.objectPrototypeProps) :
    MCP.mapMCPStatusToPropertyVetJS (some "approve") = .str "approved" ∧
    MCP.mapMCPStatusToPropertyVetJS (some "approve_with_conditions")
      = .str "approved" ∧
    MCP.mapMCPStatusToPropertyVetJS (some "manual_review") = .str "flagged" ∧
    MCP.mapMCPStatusToPropertyVetJS (some "decline") = .str "declined" ∧
    MCP.mapMCPStatusToPropertyVetJS none = .str "processing" ∧
    MCP.mapMCPStatusToPropertyVetJS (some k) = .str "processing" ∧
    (∀ p ∈ MCP.objectPrototypeProps,
      MCP.mapMCPStatusToPropertyVetJS (some p) = .inheritedObject p) := by
  refine ⟨rfl, rfl, rfl, rfl, rfl, ?_, by decide⟩
  simp only [List.mem_cons, List.mem_singleton, not_or] at hk
  obtain ⟨h1, h2, h3, h4, -⟩ := hk
  have b1 : (k == "approve") = false := beq_eq_false_iff_ne.mpr h1
  have b2 : (k == "approve_with_conditions") = false :=
    beq_eq_false_iff_ne.mpr h2
  have b3 : (k == "manual_review") = false := beq_eq_false_iff_ne.mpr h3
  have b4 : (k == "decline") = false := beq_eq_false_iff_ne.mpr h4
  simp only [MCP.mapMCPStatusToPropertyVetJS, MCP.statusMap, List.lookup,
             b1, b2, b3, b4]
  rw [if_neg hp]

/-- C8 amended, instantiated at a key that is neither in the table nor an
`Object.prototype` property. -/
theorem C8_status_mapping_amended_witness :
    "anything_else" ∉ ["approve", "approve_with_conditions", "manual_review",
                       "decline"] ∧
    "anything_else" ∉ MCP.objectPrototypeProps ∧
    MCP.mapMCPStatusToPropertyVetJS (some "anything_else")
      = .str "processing" :=
  ⟨by decide, by decide,
   (C8_status_mapping_amended "anything_else" (by decide)
      (by decide)).2.2.2.2.2.1⟩

/-- C9: when no stored record matches both the id and the requesting user,
the response is the one fixed not-found body — so a non-owner's query and a
query for an absent id are literally equal responses — and record content is
only ever returned for a record owned by the caller. -/
theorem C9_ownership_indistinguishable (checks : List Server.CheckRecord)
    (id uid : String) :
    ((∀ c ∈ checks, ¬(c.id = id ∧ c.userId = uid)) →
      Server.getBackgroundCheckById checks id uid
        = Server.GetResponse.notFound "Background check not found") ∧
    (∀ c, Server.getBackgroundCheckById checks id uid
        = Server.GetResponse.ok c → c.id = id ∧ c.userId = uid) ∧
    (∀ id2 uid2, (∀ c ∈ checks, ¬(c.id = id ∧ c.userId = uid)) →
      (∀ c ∈ checks, ¬(c.id = id2 ∧ c.userId = uid2)) →
      Server.getBackgroundCheckById checks id uid
        = Server.getBackgroundCheckById checks id2 uid2) := by
  have key : ∀ (i u : String), (∀ c ∈ checks, ¬(c.id = i ∧ c.userId = u)) →
      Server.getBackgroundCheckById checks i u
        = Server.GetResponse.notFound "Background check not found" := by
    intro i u h
    unfold Server.getBackgroundCheckById
    cases hf : checks.find? (fun c => c.id == i && c.userId == u) with
    | none => rfl
    | some c =>
      exfalso
      have hmem := List.mem_of_find?_eq_some hf
      have hp := List.find?_some hf
      simp only [Bool.and_eq_true, beq_iff_eq] at hp
      exact h c hmem ⟨hp.1, hp.2⟩
  refine ⟨key id uid, ?_, ?_⟩
  · intro c hc
    unfold Server.getBackgroundCheckById at hc
    cases hf : checks.find? (fun x => x.id == id && x.userId == uid) with
    | none => rw [hf] at hc; exact absurd hc (by simp)
    | some c2 =>
      rw [hf] at hc
      have hp := List.find?_some hf
      simp only [Bool.and_eq_true, beq_iff_eq] at hp
      have hcc : c2 = c := by
        simpa using hc
      rw [← hcc]
      exact ⟨hp.1, hp.2⟩
  · intro id2 uid2 h1 h2
    rw [key id uid h1, key id2 uid2 h2]

/-- C9, instantiated: user B's query for user A's record is the same
not-found response as a query for an absent id. -/
theorem C9_ownership_indistinguishable_witness :
    (∀ c ∈ [processingCheck], ¬(c.id = "check_1" ∧ c.userId = "user_B")) ∧
    Server.getBackgroundCheckById [processingCheck] "check_1" "user_B"
      = Server.GetResponse.notFound "Background check not found" :=
  ⟨by decide,
   (C9_ownership_indistinguishable [processingCheck] "check_1" "user_B").1
     (by decide)⟩

/-- C10: for every random draw, both locally generating paths produce an
overallScore in [650, 849], and the risk level they derive is low or medium,
never high. -/
theorem C10_local_scores_bounded (r1 r2 r3 : ℚ) (now : String)
    (h0 : 0 ≤ r2) (h1 : r2 < 1) :
    (650 ≤ (Server.mkMockResults r1 r2 r3 now).results.overallScore ∧
     (Server.mkMockResults r1 r2 r3 now).results.overallScore ≤ 849 ∧
     ((Server.mkMockResults r1 r2 r3 now).results.riskLevel = "low" ∨
      (Server.mkMockResults r1 r2 r3 now).results.riskLevel = "medium") ∧
     (Server.mkMockResults r1 r2 r3 now).results.riskLevel ≠ "high") ∧
    (650 ≤ (RTW.fallbackResults r2 r3).overallScore ∧
     (RTW.fallbackResults r2 r3).overallScore ≤ 849 ∧
     ((RTW.fallbackResults r2 r3).riskLevel = "low" ∨
      (RTW.fallbackResults r2 r3).riskLevel = "medium") ∧
     (RTW.fallbackResults r2 r3).riskLevel ≠ "high") := by
  obtain ⟨hlo, hhi⟩ := score_draw_bounds h0 h1
  have hrisk := risk_chain_of_ge_650 hlo
  constructor
  · refine ⟨?_, ?_, ?_, ?_⟩
    · simpa [Server.mkMockResults] using hlo
    · simpa [Server.mkMockResults] using hhi
    · simpa [Server.mkMockResults] using hrisk
    · have h := hrisk
      rcases h with h | h <;>
        · intro hcontra
          rw [show (Server.mkMockResults r1 r2 r3 now).results.riskLevel
                = (if ⌊r2 * 200⌋ + 650 ≥ 750 then "low"
                   else if ⌊r2 * 200⌋ + 650 ≥ 650 then "medium" else "high")
              from rfl] at hcontra
          rw [h] at hcontra
          exact absurd hcontra (by decide)
  · refine ⟨?_, ?_, ?_, ?_⟩
    · simpa [RTW.fallbackResults] using hlo
    · simpa [RTW.fallbackResults] using hhi
    · simpa [RTW.fallbackResults] using hrisk
    · have h := hrisk
      rcases h with h | h <;>
        · intro hcontra
          rw [show (RTW.fallbackResults r2 r3).riskLevel
                = (if ⌊r2 * 200⌋ + 650 ≥ 750 then "low"
                   else if ⌊r2 * 200⌋ + 650 ≥ 650 then "medium" else "high")
              from rfl] at hcontra
          rw [h] at hcontra
          exact absurd hcontra (by decide)

/-- C10, instantiated at the draw 0: score 650, risk medium. -/
theorem C10_local_scores_bounded_witness :
    (0 : ℚ) ≤ 0 ∧ (0 : ℚ) < 1 ∧
    ((Server.mkMockResults 0 0 0 "t2").results.riskLevel = "low" ∨
     (Server.mkMockResults 0 0 0 "t2").results.riskLevel = "medium") :=
  ⟨le_refl 0, zero_lt_one,
   (C10_local_scores_bounded 0 0 0 "t2" (le_refl 0) zero_lt_one).1.2.2.1⟩

end PropertyVet
